import Mathlib

/-!
# Verification of the YouTube transcript microservice core (`src/app.py`)

Shallow embedding of the service's pure core: the proxy-selection policy
(`get_api_instance`), the timestamp formatter (`format_timestamp`), the
acquisition normalizer (`extract_transcript`) and the three response-shaping
endpoint handlers.  Python floats are embedded as exact rationals (`ℚ`); all
float operations appearing in the source (`//`, `%`, `+`, `%.3f` formatting)
are exact on the inputs exercised here, so the `ℚ` semantics agrees with the
float semantics of the source.  Python strings are Lean `String`s; the string
operations the source uses (`str.split`, `str.strip`, `str.lower`,
`" ".join`, f-string `02d`/`06.3f` rendering) are embedded as executable
definitions below.
-/

/-! ## Decimal rendering of numbers (embedding of Python `02d` / `06.3f` f-string specs) -/

/-- The decimal digit character for `d` (`0 ≤ d ≤ 9`). -/
def decDigit (d : ℕ) : Char := Char.ofNat (48 + d)

/-- Little-endian decimal digits of `n`, with structural fuel so that the
kernel can evaluate it.  `natDigitsRev fuel n` is the full digit list whenever
`n ≤ fuel`. -/
def natDigitsRev : ℕ → ℕ → List Char
  | 0, _ => []
  | _ + 1, 0 => []
  | fuel + 1, n + 1 => decDigit ((n + 1) % 10) :: natDigitsRev fuel ((n + 1) / 10)

/-- Decimal rendering of a natural number, as Python renders `int`s. -/
def natStr (n : ℕ) : String := if n = 0 then "0" else ⟨(natDigitsRev n n).reverse⟩

/-- Left-pad a string with `'0'` to total width `w` (Python zero-padded width
field of an f-string format spec). -/
def padZeros (w : ℕ) (s : String) : String := ⟨List.replicate (w - s.length) '0' ++ s.data⟩

/-- Predicate: the string `s` consists only of decimal digit characters. -/
def isDigitStr (s : String) : Bool := s.data.all Char.isDigit

/-- Embedding of the Python f-string spec `{z:0wd}` for an integer `z`:
zero-pad the decimal rendering to width `w` (sign counts toward the width). -/
def intPad (w : ℕ) (z : ℤ) : String :=
  if z < 0 then "-" ++ padZeros (w - 1) (natStr z.natAbs) else padZeros w (natStr z.toNat)

/-! ## Exact-rational embedding of Python float operations -/

/-- Python's float `%` (sign follows the divisor): `a % b = a - b * ⌊a / b⌋`. -/
def pymod (a b : ℚ) : ℚ := a - b * ⌊a / b⌋

/-- Round to the nearest integer, ties to even — the rounding used by CPython
when formatting a float with a fixed number of decimals (`%.3f` renders the
correctly-rounded decimal of the exact binary value). -/
def roundHalfEven (q : ℚ) : ℤ :=
  if Int.fract q < 1 / 2 then ⌊q⌋
  else if 1 / 2 < Int.fract q then ⌊q⌋ + 1
  else if ⌊q⌋ % 2 = 0 then ⌊q⌋ else ⌊q⌋ + 1

/-- Embedding of the Python f-string spec `{q:06.3f}`: the value rounded to 3
decimals (round-half-even), rendered with exactly 3 fractional digits and
zero-padded to total width 6 (so the integer part of a value `< 100` occupies
2 digits).  The negative branch is unreachable from `format_timestamp`
because `seconds % 60 ≥ 0` in Python for any finite input. -/
def floatFmt63 (q : ℚ) : String :=
  if roundHalfEven (q * 1000) < 0 then
    "-" ++ padZeros 1 (natStr ((roundHalfEven (q * 1000)).natAbs / 1000)) ++ "." ++
      padZeros 3 (natStr ((roundHalfEven (q * 1000)).natAbs % 1000))
  else
    padZeros 2 (natStr ((roundHalfEven (q * 1000)).toNat / 1000)) ++ "." ++
      padZeros 3 (natStr ((roundHalfEven (q * 1000)).toNat % 1000))

/-- Embedding of `src/app.py`, `format_timestamp`:
`hours = int(seconds // 3600)`; `minutes = int((seconds % 3600) // 60)`;
`secs = seconds % 60`; `f"{hours:02d}:{minutes:02d}:{secs:06.3f}"`. -/
def format_timestamp (seconds : ℚ) : String :=
  intPad 2 ⌊seconds / 3600⌋ ++ ":" ++ intPad 2 ⌊pymod seconds 3600 / 60⌋ ++ ":" ++
    floatFmt63 (pymod seconds 60)

/-! ## Embedding of the Python string operations used by the proxy policy -/

/-- Embedding of Python `str.split(sep)` for a one-character separator, on
character lists: `"".split(",") = [""]`, separators are not merged. -/
def splitChar (sep : Char) : List Char → List (List Char)
  | [] => [[]]
  | c :: cs =>
    match splitChar sep cs with
    | [] => [[c]]
    | g :: gs => if c = sep then [] :: g :: gs else (c :: g) :: gs

/-- Embedding of Python `str.strip()`: drop whitespace from both ends. -/
def pyStrip (s : List Char) : List Char :=
  ((s.dropWhile Char.isWhitespace).reverse.dropWhile Char.isWhitespace).reverse

/-- Embedding of Python `str.lower()` for ASCII data. -/
def pyLower (s : List Char) : List Char := s.map Char.toLower

/-! ## Proxy-selection policy (`get_api_instance`) -/

/-- Embedding of `src/app.py`, `WebshareProxyConfig` as constructed by `get_api_instance`:
credentials plus an optional country-code filter list. -/
structure WebshareProxyConfig where
  proxy_username : String
  proxy_password : String
  filter_ip_locations : Option (List String)
deriving DecidableEq

/-- Embedding of `src/app.py`, `get_api_instance`, parametrized by the three configuration
environment strings.  Returns the proxy specification handed to the transcript
API client, or `none` for a direct connection.  Python truthiness of a string
is "non-empty"; `filter_locations if filter_locations else None` maps both
`None` and the empty list to `None`. -/
def get_api_instance (PROXY_USERNAME PROXY_PASSWORD PROXY_LOCATIONS : String) :
    Option WebshareProxyConfig :=
  if PROXY_USERNAME ≠ "" ∧ PROXY_PASSWORD ≠ "" then
    let filter_locations : Option (List String) :=
      if PROXY_LOCATIONS ≠ "" then
        some ((splitChar ',' PROXY_LOCATIONS.data).map fun loc => ⟨pyLower (pyStrip loc)⟩)
      else none
    some ⟨PROXY_USERNAME, PROXY_PASSWORD,
      match filter_locations with
      | some [] => none
      | x => x⟩
  else none

/-! ## Acquisition and its normalization (`extract_transcript`) -/

/-- One raw segment dict `{text, start, duration}` as produced by
`FetchedTranscript.to_raw_data()`. -/
structure RawSegment where
  text : String
  start : ℚ
  duration : ℚ
deriving DecidableEq

/-- Outcome of the upstream `api.fetch(video_id, languages=[language])` call:
either the ordered segment list, or one of the four classified exception
kinds from `youtube_transcript_api._errors`, or any other exception. -/
inductive FetchOutcome where
  | ok (segments : List RawSegment)
  | transcriptsDisabled
  | noTranscriptFound
  | videoUnavailable
  | invalidVideoId
  | otherException
deriving DecidableEq

/-- Whether the fetch outcome is one of the exception outcomes (any of the
four classified kinds, or any other exception). -/
def FetchOutcome.isFailure : FetchOutcome → Bool
  | .ok _ => false
  | _ => true

/-- Logging levels of the `logging` module that the source uses. -/
inductive LogLevel where
  | info
  | warning
  | error
deriving DecidableEq

/-- The `(success, transcript_text, raw_segments)` tuple returned by
`extract_transcript`, together with the level of the log record the call
emits on failure (`logger.warning` in both `except` branches; no log record
on the success path). -/
structure ExtractResult where
  success : Bool
  transcript : Option String
  raw : Option (List RawSegment)
  logLevel : Option LogLevel
deriving DecidableEq

/-- Embedding of `src/app.py`, `extract_transcript`: on a successful fetch, the transcript
text is `" ".join([segment["text"] for segment in transcript_list])`; all
four classified exception kinds and any other exception are caught, logged
with `logger.warning`, and returned as `(False, None, None)`. -/
def extract_transcript (fetch : FetchOutcome) : ExtractResult :=
  match fetch with
  | .ok transcript_list =>
    ⟨true, some (String.intercalate " " (transcript_list.map fun seg => seg.text)),
      some transcript_list, none⟩
  | .transcriptsDisabled => ⟨false, none, none, some .warning⟩
  | .noTranscriptFound => ⟨false, none, none, some .warning⟩
  | .videoUnavailable => ⟨false, none, none, some .warning⟩
  | .invalidVideoId => ⟨false, none, none, some .warning⟩
  | .otherException => ⟨false, none, none, some .warning⟩

/-! ## Response models and endpoint handlers -/

/-- Embedding of `src/app.py`, `SimpleTranscriptResponse`. -/
structure SimpleTranscriptResponse where
  success : Bool
  videoId : String
  transcript : Option String
  hasTranscript : Bool
deriving DecidableEq

/-- Embedding of `src/app.py`, `TranscriptSegment`. -/
structure TranscriptSegment where
  text : String
  start : ℚ
  duration : ℚ
deriving DecidableEq

/-- Embedding of `src/app.py`, `TranscriptRequest`: `video_id` required, `language`
optional (`none` models an explicit JSON `null`). -/
structure TranscriptRequest where
  video_id : String
  language : Option String
deriving DecidableEq

/-- Embedding of `src/app.py`, `DetailedTranscriptResponse`. -/
structure DetailedTranscriptResponse where
  success : Bool
  videoId : String
  transcript : Option String
  raw : Option (List TranscriptSegment)
  language : Option String
deriving DecidableEq

/-- Embedding of `src/app.py`, `TimestampedSegment`. -/
structure TimestampedSegment where
  text : String
  start : ℚ
  «end» : ℚ
  startFormatted : String
  endFormatted : String
deriving DecidableEq

/-- Embedding of `src/app.py`, `TimestampedTranscriptResponse`. -/
structure TimestampedTranscriptResponse where
  success : Bool
  videoId : String
  segments : Option (List TimestampedSegment)
  language : Option String
deriving DecidableEq

/-- An HTTP response as produced by a handler: the status code (200 for a
plain model return, the explicit `status_code` of a `JSONResponse`
otherwise) and the response body. -/
structure HttpResponse (α : Type) where
  status_code : ℕ
  content : α
deriving DecidableEq

/-- Embedding of the Python expression `request.language or "en"`: `None`
and the empty string are falsy, every other string is returned unchanged. -/
def pyOrEn (language : Option String) : String :=
  match language with
  | none => "en"
  | some s => if s = "" then "en" else s

/-- Embedding of `src/app.py`, `get_transcript_simple` (`GET /transcript/{video_id}`),
parametrized by the upstream fetch outcome. -/
def get_transcript_simple (video_id : String) (lang : Option String)
    (fetch : FetchOutcome) : HttpResponse SimpleTranscriptResponse :=
  let r := extract_transcript fetch
  if r.success then
    ⟨200, ⟨true, video_id, r.transcript, true⟩⟩
  else
    ⟨404, ⟨false, video_id, none, false⟩⟩

/-- Embedding of `src/app.py`, `get_transcript_detailed` (`POST /transcript`).  On the
success path the source iterates `raw_segments`, which is never `None` there;
`Option.getD` with default `[]` embeds that unpacking. -/
def get_transcript_detailed (request : TranscriptRequest) (fetch : FetchOutcome) :
    HttpResponse DetailedTranscriptResponse :=
  let r := extract_transcript fetch
  if r.success then
    ⟨200, ⟨true, request.video_id, r.transcript,
      some ((r.raw.getD []).map fun seg => ⟨seg.text, seg.start, seg.duration⟩),
      some (pyOrEn request.language)⟩⟩
  else
    ⟨404, ⟨false, request.video_id, none, none, some (pyOrEn request.language)⟩⟩

/-- Embedding of `src/app.py`, `get_transcript_with_timestamps`
(`GET /transcript/{video_id}/timestamps`). -/
def get_transcript_with_timestamps (video_id : String) (lang : Option String)
    (fetch : FetchOutcome) : HttpResponse TimestampedTranscriptResponse :=
  let r := extract_transcript fetch
  if r.success then
    ⟨200, ⟨true, video_id,
      some ((r.raw.getD []).map fun seg =>
        ⟨seg.text, seg.start, seg.start + seg.duration,
          format_timestamp seg.start, format_timestamp (seg.start + seg.duration)⟩),
      lang⟩⟩
  else
    ⟨404, ⟨false, video_id, none, lang⟩⟩

/-- How the body of a `POST /transcript` request parses against
`TranscriptRequest`. -/
inductive RequestBody where
  | valid (request : TranscriptRequest)
  | missingVideoId
  | unparsable
deriving DecidableEq

/-- Modelled from the spec: request-body schema validation for the detailed
operation is performed by the HTTP framework (FastAPI/pydantic), which is
outside `src/`; per the spec, a body missing the required `video_id` field or
an unparsable body is rejected with the validation-error status (422),
distinct from not-found (404), before the handler — and hence acquisition —
runs.  The second component records whether `extract_transcript` was
invoked. -/
def transcript_post_route (body : RequestBody) (fetch : FetchOutcome) : ℕ × Bool :=
  match body with
  | .valid request => ((get_transcript_detailed request fetch).status_code, true)
  | .missingVideoId => (422, false)
  | .unparsable => (422, false)

/-- The space-joined concatenation of a list of strings, in order, written as
the specification phrases it (each adjacent pair separated by one space). -/
def spaceJoin : List String → String
  | [] => ""
  | [t] => t
  | t :: u :: ts => t ++ " " ++ spaceJoin (u :: ts)

/-- The IEEE-754 double nearest to `0.1` is `3602879701896397 / 2 ^ 55`, the
one nearest to `0.2` is `3602879701896397 / 2 ^ 54`; their rounded float sum
`0.1 + 0.2` is exactly `1351079888211149 / 2 ^ 52`, the value commonly
printed as `0.30000000000000004`. -/
def floatPointOnePlusPointTwo : ℚ := 1351079888211149 / 4503599627370496

/-- The regular-expression pattern `^\d\x7b2,\x7d:\d\x7b2\x7d:\d\x7b2\x7d\.\d\x7b3\x7d$`
as a structural statement: hours of at least 2 digits, minutes and seconds of
exactly 2 digits, exactly 3 fractional digits. -/
def matchesTimestampPattern (str : String) : Prop :=
  ∃ hh mm ss ff : String,
    str = hh ++ ":" ++ mm ++ ":" ++ ss ++ "." ++ ff ∧
    2 ≤ hh.length ∧ isDigitStr hh = true ∧
    mm.length = 2 ∧ isDigitStr mm = true ∧
    ss.length = 2 ∧ isDigitStr ss = true ∧
    ff.length = 3 ∧ isDigitStr ff = true

/-! ## Lemmas about decimal rendering -/

lemma string_mk_length (l : List Char) : (⟨l⟩ : String).length = l.length := rfl

lemma padZeros_length (w : ℕ) (s : String) : (padZeros w s).length = max w s.length := by
  simp only [padZeros, string_mk_length, List.length_append, List.length_replicate]
  have : s.data.length = s.length := rfl
  omega

lemma decDigit_isDigit (d : ℕ) (h : d < 10) : (decDigit d).isDigit = true := by
  interval_cases d <;> decide

lemma natDigitsRev_digits (fuel n : ℕ) : ∀ c ∈ natDigitsRev fuel n, c.isDigit = true := by
  induction fuel generalizing n with
  | zero => simp [natDigitsRev]
  | succ fuel ih =>
    match n with
    | 0 => simp [natDigitsRev]
    | m + 1 =>
      intro c hc
      rw [natDigitsRev] at hc
      rcases List.mem_cons.mp hc with h | h
      · exact h ▸ decDigit_isDigit _ (Nat.mod_lt _ (by norm_num))
      · exact ih _ c h

lemma natDigitsRev_length_le (fuel n k : ℕ) (h : n < 10 ^ k) :
    (natDigitsRev fuel n).length ≤ k := by
  induction fuel generalizing n k with
  | zero => simp [natDigitsRev]
  | succ fuel ih =>
    match n with
    | 0 => simp [natDigitsRev]
    | m + 1 =>
      rw [natDigitsRev]
      have hk : k ≠ 0 := by
        rintro rfl
        norm_num at h
      obtain ⟨j, rfl⟩ : ∃ j, k = j + 1 := ⟨k - 1, by omega⟩
      have hdiv : (m + 1) / 10 < 10 ^ j := by
        rw [Nat.div_lt_iff_lt_mul (by norm_num)]
        calc m + 1 < 10 ^ (j + 1) := h
        _ = 10 ^ j * 10 := by ring
      simpa using ih ((m + 1) / 10) j hdiv

lemma natStr_isDigit (n : ℕ) : isDigitStr (natStr n) = true := by
  unfold natStr isDigitStr
  split
  · decide
  · simp only [List.all_eq_true]
    intro c hc
    exact natDigitsRev_digits n n c (List.mem_reverse.mp hc)

lemma natStr_length_le (n k : ℕ) (hn : n < 10 ^ k) (hk : 1 ≤ k) : (natStr n).length ≤ k := by
  unfold natStr
  split
  · simpa using hk
  · simpa [string_mk_length] using natDigitsRev_length_le n n k hn

lemma padZeros_isDigit (w : ℕ) (s : String) (h : isDigitStr s = true) :
    isDigitStr (padZeros w s) = true := by
  unfold isDigitStr padZeros at *
  simp only [List.all_eq_true, List.mem_append, List.mem_replicate] at *
  rintro c (⟨-, rfl⟩ | hc)
  · decide
  · exact h c hc

lemma intPad_nonneg (w : ℕ) (z : ℤ) (h : 0 ≤ z) :
    intPad w z = padZeros w (natStr z.toNat) := by
  rw [intPad, if_neg (not_lt.mpr h)]

/-- A two-or-more-digit field: its rendering is all digits, of length `max w`
the natural length; for `n < 100` and `w = 2` the length is exactly 2. -/
lemma padZeros_natStr_spec (w n : ℕ) :
    isDigitStr (padZeros w (natStr n)) = true ∧ w ≤ (padZeros w (natStr n)).length := by
  refine ⟨padZeros_isDigit _ _ (natStr_isDigit n), ?_⟩
  rw [padZeros_length]
  omega

lemma padZeros_natStr_length_eq (w n k : ℕ) (hn : n < 10 ^ k) (hw : k ≤ w) (hk : 1 ≤ k) :
    (padZeros w (natStr n)).length = w := by
  rw [padZeros_length]
  have := natStr_length_le n k hn hk
  omega

/-! ## Lemmas about the exact-rational float operations -/

lemma pymod_eq_mul_fract (a b : ℚ) (hb : b ≠ 0) : pymod a b = b * Int.fract (a / b) := by
  unfold pymod Int.fract
  field_simp

lemma pymod_nonneg (a b : ℚ) (hb : 0 < b) : 0 ≤ pymod a b := by
  rw [pymod_eq_mul_fract a b hb.ne.symm]
  exact mul_nonneg hb.le (Int.fract_nonneg _)

lemma pymod_lt (a b : ℚ) (hb : 0 < b) : pymod a b < b := by
  rw [pymod_eq_mul_fract a b hb.ne.symm]
  calc b * Int.fract (a / b) < b * 1 := by
        exact mul_lt_mul_of_pos_left (Int.fract_lt_one _) hb
  _ = b := mul_one b

lemma roundHalfEven_mem (q : ℚ) : roundHalfEven q = ⌊q⌋ ∨ roundHalfEven q = ⌊q⌋ + 1 := by
  unfold roundHalfEven
  split_ifs <;> simp

lemma roundHalfEven_nonneg (q : ℚ) (h : 0 ≤ q) : 0 ≤ roundHalfEven q := by
  have hf : (0 : ℤ) ≤ ⌊q⌋ := Int.floor_nonneg.mpr h
  rcases roundHalfEven_mem q with h' | h' <;> omega

lemma roundHalfEven_le (q : ℚ) (n : ℤ) (h : q < n) : roundHalfEven q ≤ n := by
  have hf : ⌊q⌋ < n := Int.floor_lt.mpr (by exact_mod_cast h)
  rcases roundHalfEven_mem q with h' | h' <;> omega

lemma roundHalfEven_dist (q : ℚ) : |q - roundHalfEven q| ≤ 1 / 2 := by
  have hfr : Int.fract q = q - ⌊q⌋ := rfl
  have h0 : (0 : ℚ) ≤ q - ⌊q⌋ := hfr ▸ Int.fract_nonneg q
  have h1 : q - ⌊q⌋ < 1 := hfr ▸ Int.fract_lt_one q
  unfold roundHalfEven
  split_ifs with ha hb hc
  · rw [hfr] at ha
    rw [abs_le]
    constructor <;> push_cast <;> linarith
  · rw [hfr] at hb
    rw [abs_le]
    constructor <;> push_cast <;> linarith
  · rw [hfr] at ha hb
    rw [abs_le]
    constructor <;> push_cast <;> linarith
  · rw [hfr] at ha hb
    rw [abs_le]
    constructor <;> push_cast <;> linarith

/-- Evaluation helper: if `⌊q⌋ = z` and `q` is less than `z + 1/2`, the
rounded value is `z`. -/
lemma roundHalfEven_eval_lt (q : ℚ) (z : ℤ) (hfl : ⌊q⌋ = z) (h : q - z < 1 / 2) :
    roundHalfEven q = z := by
  have hfr : Int.fract q < 1 / 2 := by
    unfold Int.fract
    rw [hfl]
    exact h
  unfold roundHalfEven
  rw [if_pos hfr, hfl]

/-- Evaluation helper: if `⌊q⌋ = z` and `q` exceeds `z + 1/2`, the rounded
value is `z + 1`. -/
lemma roundHalfEven_eval_gt (q : ℚ) (z : ℤ) (hfl : ⌊q⌋ = z) (h : 1 / 2 < q - z) :
    roundHalfEven q = z + 1 := by
  have hfr : 1 / 2 < Int.fract q := by
    unfold Int.fract
    rw [hfl]
    exact h
  unfold roundHalfEven
  rw [if_neg (not_lt.mpr hfr.le), if_pos hfr, hfl]

lemma floatFmt63_of_nonneg (q : ℚ) (h : 0 ≤ q) :
    floatFmt63 q =
      padZeros 2 (natStr ((roundHalfEven (q * 1000)).toNat / 1000)) ++ "." ++
        padZeros 3 (natStr ((roundHalfEven (q * 1000)).toNat % 1000)) := by
  have : 0 ≤ roundHalfEven (q * 1000) :=
    roundHalfEven_nonneg _ (by positivity)
  rw [floatFmt63, if_neg (not_lt.mpr this)]

/-- Closed-form of `format_timestamp` given the values of the two floors and
the rounded milliseconds. -/
lemma format_timestamp_eval (q : ℚ) (H M : ℤ) (mil : ℕ)
    (h1 : ⌊q / 3600⌋ = H) (h2 : ⌊pymod q 3600 / 60⌋ = M)
    (h3 : roundHalfEven (pymod q 60 * 1000) = (mil : ℤ)) :
    format_timestamp q =
      intPad 2 H ++ ":" ++ intPad 2 M ++ ":" ++
        (padZeros 2 (natStr (mil / 1000)) ++ "." ++ padZeros 3 (natStr (mil % 1000))) := by
  unfold format_timestamp
  rw [h1, h2, floatFmt63, h3]
  rw [if_neg (not_lt.mpr (Int.natCast_nonneg mil))]
  simp

lemma padZeros2_length (n : ℕ) (h : n < 100) : (padZeros 2 (natStr n)).length = 2 :=
  padZeros_natStr_length_eq 2 n 2 (lt_of_lt_of_eq h (by norm_num)) le_rfl (by norm_num)

lemma padZeros3_length (n : ℕ) (h : n < 1000) : (padZeros 3 (natStr n)).length = 3 :=
  padZeros_natStr_length_eq 3 n 3 (lt_of_lt_of_eq h (by norm_num)) le_rfl (by norm_num)

/-- The general shape property: for every non-negative rational input, the
formatted timestamp decomposes into digit fields `HH:MM:SS.mmm` with at least
2 hour digits, exactly 2 minute and second digits and exactly 3 fractional
digits. -/
lemma format_timestamp_pattern (s : ℚ) (hs : 0 ≤ s) :
    matchesTimestampPattern (format_timestamp s) := by
  have h3600 : (0 : ℚ) < 3600 := by norm_num
  have h60 : (0 : ℚ) < 60 := by norm_num
  have hH : 0 ≤ ⌊s / 3600⌋ := Int.floor_nonneg.mpr (div_nonneg hs h3600.le)
  have hM0 : 0 ≤ ⌊pymod s 3600 / 60⌋ :=
    Int.floor_nonneg.mpr (div_nonneg (pymod_nonneg s 3600 h3600) h60.le)
  have hM : ⌊pymod s 3600 / 60⌋ < 60 := by
    rw [Int.floor_lt]
    push_cast
    rw [div_lt_iff h60]
    have := pymod_lt s 3600 h3600
    linarith
  have hsec0 : 0 ≤ pymod s 60 := pymod_nonneg s 60 h60
  have hmil0 : 0 ≤ roundHalfEven (pymod s 60 * 1000) :=
    roundHalfEven_nonneg _ (by positivity)
  have hmil1 : roundHalfEven (pymod s 60 * 1000) ≤ 60000 := by
    apply roundHalfEven_le
    push_cast
    have := pymod_lt s 60 h60
    linarith
  set mil := (roundHalfEven (pymod s 60 * 1000)).toNat with hmildef
  have hmilN : mil ≤ 60000 := by omega
  refine ⟨padZeros 2 (natStr (⌊s / 3600⌋).toNat),
    padZeros 2 (natStr (⌊pymod s 3600 / 60⌋).toNat),
    padZeros 2 (natStr (mil / 1000)), padZeros 3 (natStr (mil % 1000)),
    ?_, ?_, ?_, ?_, ?_, ?_, ?_, ?_, ?_⟩
  · unfold format_timestamp
    rw [intPad_nonneg 2 _ hH, intPad_nonneg 2 _ hM0, floatFmt63_of_nonneg _ hsec0]
    apply String.ext
    simp
  · exact (padZeros_natStr_spec 2 _).2
  · exact (padZeros_natStr_spec 2 _).1
  · exact padZeros2_length _ (by omega)
  · exact (padZeros_natStr_spec 2 _).1
  · exact padZeros2_length _ (by omega)
  · exact (padZeros_natStr_spec 2 _).1
  · exact padZeros3_length _ (by omega)
  · exact padZeros_isDigit 3 _ (natStr_isDigit _)

/-! ### Concrete evaluations of the formatter -/

lemma format_timestamp_zero : format_timestamp 0 = "00:00:00.000" := by
  have h3 : roundHalfEven (pymod 0 60 * 1000) = ((0 : ℕ) : ℤ) := by
    have hx : pymod 0 60 * 1000 = 0 := by norm_num [pymod]
    rw [hx, roundHalfEven_eval_lt 0 0 (by norm_num) (by norm_num)]
    norm_num
  rw [format_timestamp_eval 0 0 0 0 (by norm_num) (by norm_num [pymod]) h3]
  decide

lemma format_timestamp_sixty : format_timestamp 60 = "00:01:00.000" := by
  have h3 : roundHalfEven (pymod 60 60 * 1000) = ((0 : ℕ) : ℤ) := by
    have hx : pymod 60 60 * 1000 = 0 := by norm_num [pymod]
    rw [hx, roundHalfEven_eval_lt 0 0 (by norm_num) (by norm_num)]
    norm_num
  rw [format_timestamp_eval 60 0 1 0 (by norm_num) (by norm_num [pymod]) h3]
  decide

lemma format_timestamp_hour : format_timestamp 3600 = "01:00:00.000" := by
  have h3 : roundHalfEven (pymod 3600 60 * 1000) = ((0 : ℕ) : ℤ) := by
    have hx : pymod 3600 60 * 1000 = 0 := by norm_num [pymod]
    rw [hx, roundHalfEven_eval_lt 0 0 (by norm_num) (by norm_num)]
    norm_num
  rw [format_timestamp_eval 3600 1 0 0 (by norm_num) (by norm_num [pymod]) h3]
  decide

lemma format_timestamp_3665123 : format_timestamp (3665123 / 1000) = "01:01:05.123" := by
  have h3 : roundHalfEven (pymod (3665123 / 1000) 60 * 1000) = ((5123 : ℕ) : ℤ) := by
    have hx : pymod (3665123 / 1000 : ℚ) 60 * 1000 = 5123 := by norm_num [pymod]
    rw [hx, roundHalfEven_eval_lt 5123 5123 (by norm_num) (by norm_num)]
    norm_num
  rw [format_timestamp_eval (3665123 / 1000) 1 1 5123 (by norm_num) (by norm_num [pymod]) h3]
  decide

lemma format_timestamp_five : format_timestamp 5 = "00:00:05.000" := by
  have h3 : roundHalfEven (pymod 5 60 * 1000) = ((5000 : ℕ) : ℤ) := by
    have hx : pymod 5 60 * 1000 = 5000 := by norm_num [pymod]
    rw [hx, roundHalfEven_eval_lt 5000 5000 (by norm_num) (by norm_num)]
    norm_num
  rw [format_timestamp_eval 5 0 0 5000 (by norm_num) (by norm_num [pymod]) h3]
  decide

lemma format_timestamp_seven_five : format_timestamp (15 / 2) = "00:00:07.500" := by
  have h3 : roundHalfEven (pymod (15 / 2) 60 * 1000) = ((7500 : ℕ) : ℤ) := by
    have hx : pymod (15 / 2 : ℚ) 60 * 1000 = 7500 := by norm_num [pymod]
    rw [hx, roundHalfEven_eval_lt 7500 7500 (by norm_num) (by norm_num)]
    norm_num
  rw [format_timestamp_eval (15 / 2) 0 0 7500 (by norm_num) (by norm_num [pymod]) h3]
  decide

lemma format_timestamp_point_three :
    format_timestamp floatPointOnePlusPointTwo = "00:00:00.300" := by
  have h3 : roundHalfEven (pymod floatPointOnePlusPointTwo 60 * 1000) = ((300 : ℕ) : ℤ) := by
    have hx : pymod floatPointOnePlusPointTwo 60 * 1000 =
        1351079888211149000 / 4503599627370496 := by
      norm_num [pymod, floatPointOnePlusPointTwo]
    rw [hx, roundHalfEven_eval_lt _ 300 (by norm_num) (by norm_num)]
    norm_num
  rw [format_timestamp_eval floatPointOnePlusPointTwo 0 0 300
    (by norm_num [floatPointOnePlusPointTwo])
    (by norm_num [pymod, floatPointOnePlusPointTwo]) h3]
  decide

/-! ## Python `" ".join` versus the spec's space-joined concatenation -/

lemma spaceJoin_glue (x a : String) (as : List String) :
    spaceJoin ((x ++ " " ++ a) :: as) = x ++ " " ++ spaceJoin (a :: as) := by
  cases as with
  | nil => rfl
  | cons b bs =>
    show (x ++ " " ++ a) ++ " " ++ spaceJoin (b :: bs) = x ++ " " ++ (a ++ " " ++ spaceJoin (b :: bs))
    apply String.ext
    simp

lemma intercalate_go_space (as : List String) :
    ∀ acc : String, String.intercalate.go acc " " as = spaceJoin (acc :: as) := by
  induction as with
  | nil => intro acc; rfl
  | cons a as ih =>
    intro acc
    show String.intercalate.go (acc ++ " " ++ a) " " as = _
    rw [ih (acc ++ " " ++ a), spaceJoin_glue]
    rfl

/-- Python's `" ".join(l)` equals the spec's space-joined concatenation. -/
lemma intercalate_space_eq_spaceJoin (l : List String) :
    String.intercalate " " l = spaceJoin l := by
  cases l with
  | nil => rfl
  | cons a as => exact intercalate_go_space as a

/-! ## Lemmas about the proxy-policy string operations -/

lemma splitChar_ne_nil (sep : Char) (l : List Char) : splitChar sep l ≠ [] := by
  cases l with
  | nil => simp [splitChar]
  | cons c cs =>
    rw [splitChar]
    rcases h : splitChar sep cs with - | ⟨g, gs⟩
    · simp
    · by_cases hc : c = sep <;> simp [hc]

/-! ## The claims -/

/-- C1: for every ordered segment sequence of a successful acquisition, the
transcript produced by `extract_transcript` is the space-joined concatenation
of every segment's `text` field in sequence order, including empty-string
segments; an empty-text segment contributes a join separator on each side, so
the segment texts `["Hello", "", "world"]` yield the transcript
`"Hello  world"` with a visible double space. -/
theorem C1_transcript_is_space_join :
    (∀ segments : List RawSegment,
      (extract_transcript (.ok segments)).transcript =
        some (spaceJoin (segments.map fun seg => seg.text))) ∧
    (extract_transcript
      (.ok [⟨"Hello", 0, 1.5⟩, ⟨"", 1.5, 1⟩, ⟨"world", 2.5, 2⟩])).transcript =
      some "Hello  world" := by
  constructor
  · intro segments
    simp [extract_transcript, intercalate_space_eq_spaceJoin]
  · rfl

/-- C2: for every segment of a successful acquisition, the timestamped
operation produces a response segment with `end = start + duration` (exact
rational/float arithmetic), `startFormatted = format_timestamp start` and
`endFormatted = format_timestamp (start + duration)`, in input order; in
particular `start = 5.0`, `duration = 2.5` yields `end = 7.5`. -/
theorem C2_timestamped_segments :
    (∀ (video_id : String) (lang : Option String) (segments : List RawSegment),
      (get_transcript_with_timestamps video_id lang (.ok segments)).content.segments =
        some (segments.map fun seg =>
          ⟨seg.text, seg.start, seg.start + seg.duration,
            format_timestamp seg.start, format_timestamp (seg.start + seg.duration)⟩)) ∧
    (get_transcript_with_timestamps "v" (some "en") (.ok [⟨"x", 5, 2.5⟩])).content.segments =
      some [⟨"x", 5, 7.5, "00:00:05.000", "00:00:07.500"⟩] := by
  constructor
  · intro video_id lang segments
    simp [get_transcript_with_timestamps, extract_transcript]
  · have h0 : (get_transcript_with_timestamps "v" (some "en")
        (.ok [⟨"x", 5, 2.5⟩])).content.segments =
        some [⟨"x", 5, 5 + 2.5, format_timestamp 5, format_timestamp (5 + 2.5)⟩] := rfl
    rw [h0, show (5 : ℚ) + 2.5 = 15 / 2 by norm_num, format_timestamp_five,
      format_timestamp_seven_five]
    norm_num

/-- C3: for every non-negative rational input, `format_timestamp` produces a
string of the shape `HH:MM:SS.mmm` (hours at least 2 digits with no upper
bound, minutes and seconds exactly 2 digits, exactly 3 fractional digits, all
digit characters), it is a total function (never raises), and it takes the
four concrete values of the claim. -/
theorem C3_format_timestamp_shape :
    (∀ s : ℚ, 0 ≤ s → matchesTimestampPattern (format_timestamp s)) ∧
    format_timestamp 0 = "00:00:00.000" ∧
    format_timestamp 60 = "00:01:00.000" ∧
    format_timestamp 3600 = "01:00:00.000" ∧
    format_timestamp (3665123 / 1000) = "01:01:05.123" :=
  ⟨format_timestamp_pattern, format_timestamp_zero, format_timestamp_sixty,
    format_timestamp_hour, format_timestamp_3665123⟩

/-- Witness for C3 at the concrete input `3665.123`. -/
theorem C3_format_timestamp_shape_witness :
    (0 : ℚ) ≤ 3665123 / 1000 ∧ matchesTimestampPattern (format_timestamp (3665123 / 1000)) :=
  ⟨by norm_num, C3_format_timestamp_shape.1 (3665123 / 1000) (by norm_num)⟩

/-- C4: the rendered seconds field of `format_timestamp` is the decimal
rendering (2 integer digits, 3 fractional digits) of an integer number of
milliseconds within half a unit of the exact value `(s mod 60) * 1000` —
i.e. the formatter rounds to the nearest 3-decimal value (half-to-even)
rather than truncating; in particular the float `0.1 + 0.2`, whose exact
value is `1351079888211149 / 2 ^ 52 = 0.30000000000000004…`, formats as
`"00:00:00.300"`. -/
theorem C4_seconds_rounded_to_three_decimals :
    (∀ s : ℚ, 0 ≤ s → ∃ (hh mm : String) (mil : ℕ),
      format_timestamp s =
        hh ++ ":" ++ mm ++ ":" ++ padZeros 2 (natStr (mil / 1000)) ++ "." ++
          padZeros 3 (natStr (mil % 1000)) ∧
      |pymod s 60 * 1000 - (mil : ℚ)| ≤ 1 / 2) ∧
    format_timestamp floatPointOnePlusPointTwo = "00:00:00.300" := by
  refine ⟨?_, format_timestamp_point_three⟩
  intro s hs
  have h60 : (0 : ℚ) < 60 := by norm_num
  have hsec0 : 0 ≤ pymod s 60 := pymod_nonneg s 60 h60
  have hmil0 : 0 ≤ roundHalfEven (pymod s 60 * 1000) :=
    roundHalfEven_nonneg _ (by positivity)
  refine ⟨intPad 2 ⌊s / 3600⌋, intPad 2 ⌊pymod s 3600 / 60⌋,
    (roundHalfEven (pymod s 60 * 1000)).toNat, ?_, ?_⟩
  · unfold format_timestamp
    rw [floatFmt63_of_nonneg _ hsec0]
    apply String.ext
    simp
  · have hc : (((roundHalfEven (pymod s 60 * 1000)).toNat : ℕ) : ℚ) =
        ((roundHalfEven (pymod s 60 * 1000) : ℤ) : ℚ) := by
      exact_mod_cast congrArg (fun z : ℤ => (z : ℚ)) (Int.toNat_of_nonneg hmil0)
    rw [hc]
    exact roundHalfEven_dist _

/-- Witness for C4 at the concrete input `1/10`. -/
theorem C4_seconds_rounded_witness :
    (0 : ℚ) ≤ 1 / 10 ∧ ∃ (hh mm : String) (mil : ℕ),
      format_timestamp (1 / 10) =
        hh ++ ":" ++ mm ++ ":" ++ padZeros 2 (natStr (mil / 1000)) ++ "." ++
          padZeros 3 (natStr (mil % 1000)) ∧
      |pymod (1 / 10) 60 * 1000 - (mil : ℚ)| ≤ 1 / 2 :=
  ⟨by norm_num, C4_seconds_rounded_to_three_decimals.1 (1 / 10) (by norm_num)⟩

/-- C5: every failing fetch outcome — each of the four classified upstream
exception kinds and any other exception — is caught by `extract_transcript`
and returned as `(False, None, None)` with a `warning`-level (non-error) log
record, and all three operations surface it as a uniform 404 not-found
response, never a server fault. -/
theorem C5_failures_normalized :
    ∀ fetch : FetchOutcome, fetch.isFailure = true →
      extract_transcript fetch = ⟨false, none, none, some .warning⟩ ∧
      (extract_transcript fetch).logLevel ≠ some .error ∧
      (∀ (video_id : String) (lang : Option String),
        (get_transcript_simple video_id lang fetch).status_code = 404) ∧
      (∀ request : TranscriptRequest,
        (get_transcript_detailed request fetch).status_code = 404) ∧
      (∀ (video_id : String) (lang : Option String),
        (get_transcript_with_timestamps video_id lang fetch).status_code = 404) := by
  intro fetch hf
  cases fetch <;>
    simp_all [FetchOutcome.isFailure, extract_transcript, get_transcript_simple,
      get_transcript_detailed, get_transcript_with_timestamps]

/-- Witness for C5 at the unclassified-exception outcome. -/
theorem C5_failures_normalized_witness :
    FetchOutcome.isFailure .otherException = true ∧
    extract_transcript .otherException = ⟨false, none, none, some .warning⟩ ∧
    (get_transcript_simple "dQw4w9WgXcQ" (some "en") .otherException).status_code = 404 :=
  ⟨rfl, (C5_failures_normalized .otherException rfl).1,
    (C5_failures_normalized .otherException rfl).2.2.1 "dQw4w9WgXcQ" (some "en")⟩

/-- C6: a proxy specification is built iff both credential strings are
non-empty; a non-empty location string yields the filter obtained by
splitting on commas, trimming and lower-casing each entry in order; the
empty location string yields an absent (`none`) filter; and
`" us , de , gb "` yields exactly `["us", "de", "gb"]`. -/
theorem C6_proxy_policy :
    (∀ u p l : String, (get_api_instance u p l).isSome = true ↔ (u ≠ "" ∧ p ≠ "")) ∧
    (∀ u p : String, u ≠ "" → p ≠ "" → get_api_instance u p "" = some ⟨u, p, none⟩) ∧
    (∀ u p l : String, u ≠ "" → p ≠ "" → l ≠ "" →
      get_api_instance u p l =
        some ⟨u, p, some ((splitChar ',' l.data).map fun loc =>
          (⟨pyLower (pyStrip loc)⟩ : String))⟩) ∧
    get_api_instance "user" "pass" " us , de , gb " =
      some ⟨"user", "pass", some ["us", "de", "gb"]⟩ := by
  refine ⟨?_, ?_, ?_, by decide⟩
  · intro u p l
    unfold get_api_instance
    split_ifs with h <;> simp [h]
  · intro u p hu hp
    simp [get_api_instance, hu, hp]
  · intro u p l hu hp hl
    obtain ⟨g, gs, hg⟩ := List.exists_cons_of_ne_nil (splitChar_ne_nil ',' l.data)
    simp [get_api_instance, hu, hp, hl, hg]

/-- Witness for C6 at the configuration of the claim. -/
theorem C6_proxy_policy_witness :
    "user" ≠ "" ∧ "pass" ≠ "" ∧ " us , de , gb " ≠ "" ∧
    get_api_instance "user" "pass" " us , de , gb " =
      some ⟨"user", "pass",
        some ((splitChar ',' " us , de , gb ".data).map fun loc =>
          (⟨pyLower (pyStrip loc)⟩ : String))⟩ :=
  ⟨by decide, by decide, by decide,
    C6_proxy_policy.2.2.1 "user" "pass" " us , de , gb " (by decide) (by decide) (by decide)⟩

/-- C7: an acquisition succeeding with zero segments is a success, not a
failure: the simple operation returns success with transcript `""`, the
detailed operation success with transcript `""` and raw `[]`, the
timestamped operation success with segments `[]`, all with status 200. -/
theorem C7_empty_sequence_is_success :
    ∀ (video_id : String) (lang : Option String) (request : TranscriptRequest),
      extract_transcript (.ok []) = ⟨true, some "", some [], none⟩ ∧
      get_transcript_simple video_id lang (.ok []) =
        ⟨200, ⟨true, video_id, some "", true⟩⟩ ∧
      get_transcript_detailed request (.ok []) =
        ⟨200, ⟨true, request.video_id, some "", some [], some (pyOrEn request.language)⟩⟩ ∧
      get_transcript_with_timestamps video_id lang (.ok []) =
        ⟨200, ⟨true, video_id, some [], lang⟩⟩ := by
  intro video_id lang request
  exact ⟨rfl, rfl, rfl, rfl⟩

/-- C8, counterexample: a detailed-operation request whose caller explicitly
requested the language code `""` receives response language `"en"`, not the
requested `""` — the response `language` does not always equal the requested
language code. -/
theorem C8_language_echo_counterexample :
    (get_transcript_detailed ⟨"dQw4w9WgXcQ", some ""⟩ (.ok [])).content.language = some "en" ∧
    (get_transcript_detailed ⟨"dQw4w9WgXcQ", some ""⟩ (.ok [])).content.language ≠ some "" := by
  exact ⟨rfl, by decide⟩

/-- C8, amended: the timestamped operation always echoes the requested `lang`
parameter exactly, on success and on failure; the detailed operation echoes
`request.language or "en"` — i.e. the requested language whenever it is a
non-null, non-empty string, and the default `"en"` when it is null or empty.
Neither substitutes the language the upstream source actually returned. -/
theorem C8_language_echo_amended :
    (∀ (video_id : String) (lang : Option String) (fetch : FetchOutcome),
      (get_transcript_with_timestamps video_id lang fetch).content.language = lang) ∧
    (∀ (request : TranscriptRequest) (fetch : FetchOutcome),
      (get_transcript_detailed request fetch).content.language =
        some (pyOrEn request.language)) ∧
    (∀ (request : TranscriptRequest) (fetch : FetchOutcome) (s : String),
      request.language = some s → s ≠ "" →
      (get_transcript_detailed request fetch).content.language = request.language) := by
  refine ⟨?_, ?_, ?_⟩
  · intro video_id lang fetch
    cases fetch <;> rfl
  · intro request fetch
    cases fetch <;> rfl
  · intro request fetch s hs hne
    cases fetch <;> simp [get_transcript_detailed, extract_transcript, pyOrEn, hs, hne]

/-- Witness for the amended C8 at a non-empty requested language. -/
theorem C8_language_echo_amended_witness :
    (⟨"dQw4w9WgXcQ", some "de"⟩ : TranscriptRequest).language = some "de" ∧ "de" ≠ "" ∧
    (get_transcript_detailed ⟨"dQw4w9WgXcQ", some "de"⟩ (.ok [])).content.language =
      some "de" :=
  ⟨rfl, by decide,
    C8_language_echo_amended.2.2 ⟨"dQw4w9WgXcQ", some "de"⟩ (.ok []) "de" rfl (by decide)⟩

/-- C9: a detailed-operation request whose body lacks the required `video_id`
or is unparsable is rejected with the validation-error status 422 — distinct
from the not-found status 404 — and acquisition is never invoked, whatever
the upstream would have answered. -/
theorem C9_validation_before_acquisition :
    ∀ fetch : FetchOutcome,
      transcript_post_route .missingVideoId fetch = (422, false) ∧
      transcript_post_route .unparsable fetch = (422, false) ∧
      (transcript_post_route .missingVideoId fetch).1 ≠ 404 := by
  intro fetch
  have h : transcript_post_route .missingVideoId fetch = (422, false) := rfl
  exact ⟨rfl, rfl, by rw [h]; decide⟩

/-- C10: every simple-operation response satisfies `hasTranscript = success`
and `transcript` is non-null iff `success` — no mixed combination occurs. -/
theorem C10_simple_response_invariant :
    ∀ (video_id : String) (lang : Option String) (fetch : FetchOutcome),
      ((get_transcript_simple video_id lang fetch).content.hasTranscript =
        (get_transcript_simple video_id lang fetch).content.success) ∧
      ((get_transcript_simple video_id lang fetch).content.transcript ≠ none ↔
        (get_transcript_simple video_id lang fetch).content.success = true) := by
  intro video_id lang fetch
  cases fetch <;> simp [get_transcript_simple, extract_transcript]
